import Mathlib

/-!
Shallow embedding of `src/server.js`: a SOAP gate-validation service that
exists in two deployed variants (the file holds both, separated by a
document marker; "V1" is the first listing, "V2" the second).

JavaScript conventions captured here:
* an absent object property or `undefined` value is `Option.none`;
* truthiness of a string value: `undefined`/`null`/`""` are falsy;
* `a !== b` on two possibly-undefined string fields is inequality on
  `Option String` (`undefined !== undefined` is false);
* `new Date(s)` parsing is abstracted by a parameter
  `dateVal : String → Option Int` returning the epoch value, `none` when
  the string parses to an Invalid Date (whose comparisons are all false);
* the JSON round trip performed by the log helpers
  (`JSON.parse`/`JSON.stringify`) is taken as a faithful inverse, so the
  on-disk array is modelled directly as a Lean list.
-/

/-- JS string truthiness: `undefined` and the empty string are falsy. -/
def truthy : Option String → Bool
  | none => false
  | some s => !(s == "")

/-- Operator-submitted body of `POST /api/gate/validate`
(`{permitNumber, gateType, vehicleNumber, containerNumber?, containerSize?,
containerType?, confirmedByUser?}`). Fields the request may omit are
`Option`s; `confirmedByUser === true` is the strict check `= some true`. -/
structure Client where
  permitNumber : Option String
  gateType : Option String
  vehicleNumber : Option String
  containerNumber : Option String
  containerSize : Option String
  containerType : Option String
  confirmedByUser : Option Bool
deriving DecidableEq

/-- The `tns:PermitDTLS` block of the SOAP response, as surfaced by
`xml2js` with `explicitArray: false`: each child element is a string, an
absent element is `undefined`. -/
structure PermitDTLS where
  tnsPermitNumber : Option String
  tnsContainerNumber : Option String
  tnsContainerSize : Option String
  tnsContainerType : Option String
  tnsContainerStatus : Option String
  tnsVechileNumber : Option String
  tnsSlineCode : Option String
  tnsLddMtFlg : Option String
  tnsIsPermitValid : Option String
deriving DecidableEq

/-- Canonical authority record produced by variant 1's
`parseSoapResponse`: permit, container (number/size/type/status), vehicle,
line code and flag fields only — the mapping produces no validity field. -/
structure SoapDataV1 where
  permitNumber : Option String
  containerNumber : Option String
  containerSize : Option String
  containerType : Option String
  containerStatus : Option String
  vehicleNumber : Option String
  slineCode : Option String
  lddMtFlag : Option String
deriving DecidableEq

/-- Variant 1's expiry check reads `soapData.isPermitValidTill`, a property
`parseSoapResponse` never sets; in JS reading a missing property yields
`undefined`, embedded as a constant-`none` accessor. -/
def SoapDataV1.isPermitValidTill (_ : SoapDataV1) : Option String := none

/-- Canonical authority record produced by variant 2's
`parseSoapResponse`: `tns:IsPermitValid` is mapped onto
`isPermitValidTill`. -/
structure SoapDataV2 where
  permitNumber : Option String
  containerNumber : Option String
  vehicleNumber : Option String
  isPermitValidTill : Option String
deriving DecidableEq

/-- Variant 1 `parseSoapResponse` field mapping from the permit-detail
block (the envelope/body probing and the malformed case are outside the
claims; the mapping itself is total on a present `PermitDTLS`). -/
def parseSoapResponseV1 (d : PermitDTLS) : SoapDataV1 :=
  ⟨d.tnsPermitNumber, d.tnsContainerNumber, d.tnsContainerSize,
   d.tnsContainerType, d.tnsContainerStatus, d.tnsVechileNumber,
   d.tnsSlineCode, d.tnsLddMtFlg⟩

/-- Variant 2 `parseSoapResponse` field mapping. -/
def parseSoapResponseV2 (d : PermitDTLS) : SoapDataV2 :=
  ⟨d.tnsPermitNumber, d.tnsContainerNumber, d.tnsVechileNumber,
   d.tnsIsPermitValid⟩

/-- `isPermitExpired` (identical in both variants): `!validTill` makes an
absent or empty indicator expired; otherwise `new Date(validTill) < new
Date()` — an unparseable date gives `NaN`, whose comparison is false, so
only a timestamp strictly before `now` counts as expired. -/
def isPermitExpired (dateVal : String → Option Int) (now : Int)
    (validTill : Option String) : Bool :=
  match validTill with
  | none => true
  | some s =>
    if s = "" then true
    else
      match dateVal s with
      | none => false
      | some t => decide (t < now)

/-- JS `String.prototype.toUpperCase()` on the ASCII gate-type strings:
character-wise upper-casing. -/
def toUpperCase (s : String) : String := ⟨s.data.map Char.toUpper⟩

/-- JS `String.prototype.substring(0, n)`: the first `n` characters (the
whole string when it is shorter). -/
def substringTo (s : String) (n : Nat) : String := ⟨s.data.take n⟩

/-- One element of the `mismatches` array: the value-mismatch shape
`{field, client, soap}` or the missing-field shape `{field, reason}`
(absent keys are `none`). -/
structure MismatchDetail where
  field : String
  client : Option String
  soap : Option String
  reason : Option String
deriving DecidableEq

/-- Variant 2's inline container policy: `requireContainer` is true for
`GATE_IN` with permit prefix `PMA`, and for `GATE_OUT` with prefix `PMD`
or `GPC`; the prefix is the first three characters of
`client.permitNumber || ""` and the gate type is upper-cased. -/
def requireContainer (client : Client) : Bool :=
  let permit := client.permitNumber.getD ""
  let pfx := substringTo permit 3
  let gateType := toUpperCase (client.gateType.getD "")
  (gateType == "GATE_IN" && pfx == "PMA") ||
    (gateType == "GATE_OUT" && ["PMD", "GPC"].contains pfx)

/-- Variant 1 mismatch computation: permit number always compared;
container compared whenever the submitted value is truthy, regardless of
policy or of the authority side being present. No vehicle check exists. -/
def computeMismatchesV1 (client : Client) (soap : SoapDataV1) :
    List MismatchDetail :=
  (if client.permitNumber ≠ soap.permitNumber then
    [⟨"permitNumber", client.permitNumber, soap.permitNumber, none⟩]
  else []) ++
  (if truthy client.containerNumber ∧
      client.containerNumber ≠ soap.containerNumber then
    [⟨"containerNumber", client.containerNumber, soap.containerNumber, none⟩]
  else [])

/-- Variant 2 mismatch computation: a missing (falsy) submitted vehicle
number is itself a mismatch; otherwise vehicle values are compared only
when the authority side is truthy; the container is compared only under
`requireContainer` and only when both sides are truthy. There is no
permit-number comparison. -/
def computeMismatchesV2 (client : Client) (soap : SoapDataV2) :
    List MismatchDetail :=
  (if truthy client.vehicleNumber = false then
    [⟨"vehicleNumber", none, none,
      some "Vehicle number missing from validate payload"⟩]
  else if truthy soap.vehicleNumber = true ∧
      client.vehicleNumber ≠ soap.vehicleNumber then
    [⟨"vehicleNumber", client.vehicleNumber, soap.vehicleNumber, none⟩]
  else []) ++
  (if requireContainer client = true ∧
      truthy client.containerNumber = true ∧
      truthy soap.containerNumber = true ∧
      client.containerNumber ≠ soap.containerNumber then
    [⟨"containerNumber", client.containerNumber, soap.containerNumber, none⟩]
  else [])

/-- Payload shapes the service hands to `writeLog`, `io.emit`,
`sendToTargetAPI` and `axios.post`; `σ` is the authority-record type of the
variant at hand. Constructor per JS object literal:
`incoming` is variant 2's raw request, `incomingBody` variant 1's
`{body: req.body}` wrapper, `manualMatched` the
`{source: "manual", client, soapData: null, timestamp}` object,
`soapMatchedV1`/`soapMatchedV2` the `{source: "soap", client, soapData
(, timestamp)}` objects, `invalidV1`/`invalidV2` the
`{client, soapData, reason (, timestamp)}` objects, `mismatchLog` the
`{client, soapData, mismatches}` object, `errorLog` the `{error}` object
and `forwardError` the `{error, payload}` object. -/
inductive LogPayload (σ : Type) where
  | incoming (client : Client)
  | incomingBody (client : Client)
  | manualMatched (client : Client) (timestamp : String)
  | soapMatchedV1 (client : Client) (soap : σ) (timestamp : String)
  | soapMatchedV2 (client : Client) (soap : σ)
  | invalidV1 (client : Client) (soap : σ) (reason timestamp : String)
  | invalidV2 (client : Client) (soap : σ) (reason : String)
  | mismatchLog (client : Client) (soap : σ)
      (mismatches : List MismatchDetail)
  | errorLog (message : String)
  | forwardError (message : String) (payload : LogPayload σ)
deriving DecidableEq

/-- The authority record embedded in a payload (`soapData` key), when the
payload carries one. -/
def LogPayload.soapDataOf {σ : Type} : LogPayload σ → Option σ
  | .soapMatchedV1 _ s _ => some s
  | .soapMatchedV2 _ s => some s
  | .invalidV1 _ s _ _ => some s
  | .invalidV2 _ s _ => some s
  | .mismatchLog _ s _ => some s
  | .forwardError _ p => p.soapDataOf
  | _ => none

/-- The `source` key of a payload, when present. -/
def LogPayload.sourceTag {σ : Type} : LogPayload σ → Option String
  | .manualMatched _ _ => some "manual"
  | .soapMatchedV1 _ _ _ => some "soap"
  | .soapMatchedV2 _ _ => some "soap"
  | _ => none

/-- Observable side effects of one request, in program order:
a `writeLog` append, an `io.emit` broadcast, an outbound `axios.post` to
the forwarding sink, or the SOAP lookup (`callSoapApi`). -/
inductive Effect (σ : Type) where
  | log (file : String) (payload : LogPayload σ)
  | emit (event : String) (payload : LogPayload σ)
  | post (url : String) (payload : LogPayload σ)
  | soapCall (permitNumber : Option String)
deriving DecidableEq

/-- Body of the HTTP response sent by the validate endpoint (field `type`
of the JS object is `typeField` here). -/
inductive Body (σ : Type) where
  | manualOk (message : String)
  | matchedOk (soapData : σ)
  | expired (typeField message : String) (soapData : σ)
  | mismatch (mismatches : List MismatchDetail) (soapData : σ)
  | internalError (error : String)
deriving DecidableEq

/-- HTTP status plus JSON body (`res.json` without `res.status` is 200). -/
structure HttpResponse (σ : Type) where
  status : Nat
  body : Body σ
deriving DecidableEq

/-- The configured downstream sink URL. -/
def DUMMY_TARGET_API : String := "http://localhost:6000/dummy-receiver"

/-- `sendToTargetAPI` (identical in both variants): log the payload to
`sent-to-api.log.json`, attempt the `axios.post` with a 5000 ms timeout,
and on any delivery failure (`delivery = .error msg`) log
`{error: msg, payload}` to `sent-to-api-error.log.json` inside the
`catch`; the function always returns normally, so its embedding is total
and returns the effect list. -/
def sendToTargetAPI {σ : Type} (payload : LogPayload σ)
    (delivery : Except String Unit) : List (Effect σ) :=
  Effect.log "sent-to-api.log.json" payload ::
    Effect.post DUMMY_TARGET_API payload ::
      match delivery with
      | .ok _ => []
      | .error msg =>
        [Effect.log "sent-to-api-error.log.json" (.forwardError msg payload)]

/-- Variant 1 final-decision stage (the code after the expiry check):
compute the mismatch list; `mismatches.length === 0` gives the matched
path — matched log, forward, matched event, `{success, soapData}` — else
the mismatch path — mismatch log, mismatch event, 409 with the list and
the record. -/
def reconcileV1 (ts : String) (client : Client) (soap : SoapDataV1)
    (delivery : Except String Unit) :
    List (Effect SoapDataV1) × HttpResponse SoapDataV1 :=
  let ms := computeMismatchesV1 client soap
  if ms.length = 0 then
    let p := LogPayload.soapMatchedV1 client soap ts
    ([Effect.log "matched.log.json" p] ++ sendToTargetAPI p delivery ++
       [Effect.emit "gate:matched" p],
     ⟨200, .matchedOk soap⟩)
  else
    let p := LogPayload.mismatchLog client soap ms
    ([Effect.log "mismatch.log.json" p, Effect.emit "gate:mismatch" p],
     ⟨409, .mismatch ms soap⟩)

/-- Variant 2 final-decision stage, same shape as variant 1's but with
variant 2's mismatch computation and timestamp-free payloads. -/
def reconcileV2 (client : Client) (soap : SoapDataV2)
    (delivery : Except String Unit) :
    List (Effect SoapDataV2) × HttpResponse SoapDataV2 :=
  let ms := computeMismatchesV2 client soap
  if ms.length = 0 then
    let p := LogPayload.soapMatchedV2 client soap
    ([Effect.log "matched.log.json" p] ++ sendToTargetAPI p delivery ++
       [Effect.emit "gate:matched" p],
     ⟨200, .matchedOk soap⟩)
  else
    let p := LogPayload.mismatchLog client soap ms
    ([Effect.log "mismatch.log.json" p, Effect.emit "gate:mismatch" p],
     ⟨409, .mismatch ms soap⟩)

/-- Variant 1 `POST /api/gate/validate`: log the `{body}`-wrapped request;
on `confirmedByUser === true` take the manual flow (no SOAP call); else
call SOAP (`soapResult` is the call's outcome; a throw is caught by the
surrounding `try` and answered with 500 after an `error.log.json` entry);
then the expiry check (whose response `type` is `"INVALID_PERMIT"`), and
finally the mismatch/matched decision. `ts` stands for the
`new Date().toISOString()` stamps placed in the payloads. -/
def validateV1 (dateVal : String → Option Int) (now : Int) (ts : String)
    (client : Client) (soapResult : Except String SoapDataV1)
    (delivery : Except String Unit) :
    List (Effect SoapDataV1) × HttpResponse SoapDataV1 :=
  let incomingEff :=
    [Effect.log "incoming.log.json" (LogPayload.incomingBody client)]
  if client.confirmedByUser = some true then
    let p := LogPayload.manualMatched client ts
    (incomingEff ++ [Effect.log "matched.log.json" p] ++
       sendToTargetAPI p delivery ++ [Effect.emit "gate:matched" p],
     ⟨200, .manualOk "Manually confirmed & sent"⟩)
  else
    match soapResult with
    | .error msg =>
      (incomingEff ++ [Effect.soapCall client.permitNumber,
         Effect.log "error.log.json" (.errorLog msg)],
       ⟨500, .internalError msg⟩)
    | .ok soap =>
      let pre := incomingEff ++ [Effect.soapCall client.permitNumber]
      if isPermitExpired dateVal now soap.isPermitValidTill then
        let p := LogPayload.invalidV1 client soap "PERMIT_EXPIRED" ts
        (pre ++ [Effect.log "invalid.log.json" p,
           Effect.emit "gate:invalid" p],
         ⟨422, .expired "INVALID_PERMIT" "Permit is expired" soap⟩)
      else
        let r := reconcileV1 ts client soap delivery
        (pre ++ r.1, r.2)

/-- Variant 2 `POST /api/gate/validate`: log the raw request, call SOAP
unconditionally (no manual flow), run the expiry check (response `type`
`"PERMIT_EXPIRED"`), then the vehicle/container reconciliation. The
variant puts no timestamp in its payloads. -/
def validateV2 (dateVal : String → Option Int) (now : Int)
    (client : Client) (soapResult : Except String SoapDataV2)
    (delivery : Except String Unit) :
    List (Effect SoapDataV2) × HttpResponse SoapDataV2 :=
  let incomingEff :=
    [Effect.log "incoming.log.json" (LogPayload.incoming client)]
  match soapResult with
  | .error msg =>
    (incomingEff ++ [Effect.soapCall client.permitNumber,
       Effect.log "error.log.json" (.errorLog msg)],
     ⟨500, .internalError msg⟩)
  | .ok soap =>
    let pre := incomingEff ++ [Effect.soapCall client.permitNumber]
    if isPermitExpired dateVal now soap.isPermitValidTill then
      let p := LogPayload.invalidV2 client soap "PERMIT_EXPIRED"
      (pre ++ [Effect.log "invalid.log.json" p,
         Effect.emit "gate:invalid" p],
       ⟨422, .expired "PERMIT_EXPIRED" "Permit is expired" soap⟩)
    else
      let r := reconcileV2 client soap delivery
      (pre ++ r.1, r.2)

/-- One element of an on-disk log array: the appended object is the data
spread after a `timestamp` key stamped at append time. -/
structure LogEntry (α : Type) where
  timestamp : String
  data : α
deriving DecidableEq

/-- The log directory: each file name maps to the parsed array it holds,
`none` when the file does not exist. A file whose text fails `JSON.parse`
behaves exactly like an absent one in both helpers (both `catch` to `[]`),
so the embedding needs no corrupt state; the `JSON.stringify`/`JSON.parse`
round trip is taken as a faithful inverse. -/
def FileStore (α : Type) := String → Option (List (LogEntry α))

/-- A fresh log directory (`LOG_DIR` just created): no file exists. -/
def emptyStore (α : Type) : FileStore α := fun _ => none

/-- `writeLog(file, data)`: read the file's current array (absent, empty
or unparsable text gives `[]`), push `{timestamp, ...data}`, write the
whole array back. -/
def writeLog {α : Type} (file ts : String) (d : α) (fs : FileStore α) :
    FileStore α :=
  let arr := (fs file).getD []
  fun f => if f = file then some (arr ++ [⟨ts, d⟩]) else fs f

/-- `readLog(file)`: the file's parsed array, `[]` when the file is absent
or unreadable. -/
def readLog {α : Type} (file : String) (fs : FileStore α) :
    List (LogEntry α) :=
  (fs file).getD []

/-- A sequence of `writeLog` calls to one file, each with its append-time
timestamp. -/
def writeAll {α : Type} (file : String) (entries : List (String × α))
    (fs : FileStore α) : FileStore α :=
  entries.foldl (fun st e => writeLog file e.1 e.2 st) fs

example :
    computeMismatchesV2
      ⟨some "PMA1001", some "GATE_IN", some "MH12AB1234", none, none, none, none⟩
      ⟨some "PMA1001", none, some "MH12AB1234", some "2099"⟩ = [] := by
  decide

example :
    computeMismatchesV2
      ⟨some "PMD2002", some "GATE_OUT", some "V1", some "C1", none, none, none⟩
      ⟨none, some "C2", some "V1", some "2099"⟩ =
      [⟨"containerNumber", some "C1", some "C2", none⟩] := by
  decide

/-! ## Helper lemmas -/

theorem isPermitExpired_of_indicator {dateVal : String → Option Int}
    {now : Int} {v : Option String}
    (h : v = none ∨ ∃ s t, v = some s ∧ dateVal s = some t ∧ t < now) :
    isPermitExpired dateVal now v = true := by
  rcases h with h | ⟨s, t, hv, hd, hlt⟩
  · subst h; rfl
  · subst hv
    unfold isPermitExpired
    by_cases hs : s = ""
    · simp [hs]
    · simp [hs, hd, hlt]

theorem expiredV1_always (dateVal : String → Option Int) (now : Int)
    (soap : SoapDataV1) :
    isPermitExpired dateVal now soap.isPermitValidTill = true := rfl

/-! ## Claims -/

/-- Claim C1: in the SOAP flow, an authority record whose validity
indicator is absent or resolves to a timestamp strictly before decision
time yields the Expired outcome (HTTP 422) with no mismatch evaluation,
and the full authority record is attached to the emitted payload, the
invalid audit entry and the HTTP response — in both variants, for every
request (in variant 1 the SOAP flow is the non-manual path). The effect
list is exactly incoming log, SOAP call, invalid log, invalid event. -/
theorem spec_c1
    (dateVal : String → Option Int) (now : Int) (ts : String)
    (client2 : Client) (soap2 : SoapDataV2) (delivery2 : Except String Unit)
    (client1 : Client) (soap1 : SoapDataV1) (delivery1 : Except String Unit)
    (h2 : soap2.isPermitValidTill = none ∨
      ∃ s t, soap2.isPermitValidTill = some s ∧ dateVal s = some t ∧ t < now)
    (h1 : client1.confirmedByUser ≠ some true) :
    (validateV2 dateVal now client2 (.ok soap2) delivery2 =
      ([Effect.log "incoming.log.json" (LogPayload.incoming client2),
        Effect.soapCall client2.permitNumber,
        Effect.log "invalid.log.json"
          (LogPayload.invalidV2 client2 soap2 "PERMIT_EXPIRED"),
        Effect.emit "gate:invalid"
          (LogPayload.invalidV2 client2 soap2 "PERMIT_EXPIRED")],
       ⟨422, .expired "PERMIT_EXPIRED" "Permit is expired" soap2⟩) ∧
     (LogPayload.invalidV2 client2 soap2 "PERMIT_EXPIRED").soapDataOf =
       some soap2) ∧
    (validateV1 dateVal now ts client1 (.ok soap1) delivery1 =
      ([Effect.log "incoming.log.json" (LogPayload.incomingBody client1),
        Effect.soapCall client1.permitNumber,
        Effect.log "invalid.log.json"
          (LogPayload.invalidV1 client1 soap1 "PERMIT_EXPIRED" ts),
        Effect.emit "gate:invalid"
          (LogPayload.invalidV1 client1 soap1 "PERMIT_EXPIRED" ts)],
       ⟨422, .expired "INVALID_PERMIT" "Permit is expired" soap1⟩) ∧
     (LogPayload.invalidV1 client1 soap1 "PERMIT_EXPIRED" ts).soapDataOf =
       some soap1) := by
  have e2 : isPermitExpired dateVal now soap2.isPermitValidTill = true :=
    isPermitExpired_of_indicator h2
  refine ⟨⟨?_, rfl⟩, ⟨?_, rfl⟩⟩
  · simp [validateV2, e2]
  · simp [validateV1, h1, expiredV1_always]

/-- Witness for C1 at a concrete expired input. -/
theorem spec_c1_witness :
    (validateV2 (fun _ => some 5) 10
        ⟨some "PMA1001", some "GATE_IN", some "V1", none, none, none, none⟩
        (.ok ⟨some "PMA1001", none, some "V1", some "old"⟩) (.ok ())).2 =
      ⟨422, .expired "PERMIT_EXPIRED" "Permit is expired"
        ⟨some "PMA1001", none, some "V1", some "old"⟩⟩ := by
  have h := spec_c1 (fun _ => some 5) 10 "T"
    ⟨some "PMA1001", some "GATE_IN", some "V1", none, none, none, none⟩
    ⟨some "PMA1001", none, some "V1", some "old"⟩ (.ok ())
    ⟨some "PMA1001", some "GATE_IN", some "V1", none, none, none, none⟩
    ⟨some "PMA1001", none, none, none, none, some "V1", none, none⟩ (.ok ())
    (Or.inr ⟨"old", 5, rfl, rfl, by decide⟩) (by decide)
  rw [h.1.1]

/-- Claim C2: in the field-reconciliation stage of either variant, the
decision is Matched (success body carrying the authority record) iff the
computed mismatch list is empty, and otherwise it is a 409 carrying
exactly that non-empty list. Variant 2 is stated through the full
handler under a non-expired record; variant 1 through its final-decision
stage, which the handler runs whenever its expiry check fails. -/
theorem spec_c2
    (dateVal : String → Option Int) (now : Int) (ts : String)
    (client2 : Client) (soap2 : SoapDataV2) (delivery2 : Except String Unit)
    (client1 : Client) (soap1 : SoapDataV1) (delivery1 : Except String Unit)
    (h2 : isPermitExpired dateVal now soap2.isPermitValidTill = false) :
    ((validateV2 dateVal now client2 (.ok soap2) delivery2).2.body =
        Body.matchedOk soap2 ↔ computeMismatchesV2 client2 soap2 = []) ∧
    (computeMismatchesV2 client2 soap2 = [] →
      (validateV2 dateVal now client2 (.ok soap2) delivery2).2 =
        ⟨200, .matchedOk soap2⟩) ∧
    (computeMismatchesV2 client2 soap2 ≠ [] →
      (validateV2 dateVal now client2 (.ok soap2) delivery2).2 =
        ⟨409, .mismatch (computeMismatchesV2 client2 soap2) soap2⟩) ∧
    ((reconcileV1 ts client1 soap1 delivery1).2.body =
        Body.matchedOk soap1 ↔ computeMismatchesV1 client1 soap1 = []) ∧
    (computeMismatchesV1 client1 soap1 = [] →
      (reconcileV1 ts client1 soap1 delivery1).2 =
        ⟨200, .matchedOk soap1⟩) ∧
    (computeMismatchesV1 client1 soap1 ≠ [] →
      (reconcileV1 ts client1 soap1 delivery1).2 =
        ⟨409, .mismatch (computeMismatchesV1 client1 soap1) soap1⟩) := by
  have hv : (validateV2 dateVal now client2 (.ok soap2) delivery2).2 =
      (reconcileV2 client2 soap2 delivery2).2 := by
    simp [validateV2, h2]
  rw [hv]
  cases hms2 : computeMismatchesV2 client2 soap2 with
  | nil =>
    cases hms1 : computeMismatchesV1 client1 soap1 with
    | nil => simp [reconcileV1, reconcileV2, hms1, hms2]
    | cons m rest => simp [reconcileV1, reconcileV2, hms1, hms2]
  | cons m rest =>
    cases hms1 : computeMismatchesV1 client1 soap1 with
    | nil => simp [reconcileV1, reconcileV2, hms1, hms2]
    | cons m' rest' => simp [reconcileV1, reconcileV2, hms1, hms2]

/-- Witness for C2: a concrete matching request is answered 200 with the
record, and a concrete mismatching variant-1 pair is answered 409. -/
theorem spec_c2_witness :
    (validateV2 (fun _ => some 99) 10
        ⟨some "PMA1001", some "GATE_IN", some "V1", none, none, none, none⟩
        (.ok ⟨some "PMA1001", none, some "V1", some "d"⟩) (.ok ())).2 =
      ⟨200, .matchedOk ⟨some "PMA1001", none, some "V1", some "d"⟩⟩ ∧
    (reconcileV1 "T"
        ⟨some "A", none, none, none, none, none, none⟩
        ⟨some "B", none, none, none, none, none, none, none⟩ (.ok ())).2 =
      ⟨409, .mismatch [⟨"permitNumber", some "A", some "B", none⟩]
        ⟨some "B", none, none, none, none, none, none, none⟩⟩ := by
  have h := spec_c2 (fun _ => some 99) 10 "T"
    ⟨some "PMA1001", some "GATE_IN", some "V1", none, none, none, none⟩
    ⟨some "PMA1001", none, some "V1", some "d"⟩ (.ok ())
    ⟨some "A", none, none, none, none, none, none⟩
    ⟨some "B", none, none, none, none, none, none, none⟩ (.ok ())
    (by decide)
  refine ⟨h.2.1 (by decide), ?_⟩
  have h9 := h.2.2.2.2.2 (by decide)
  rw [h9]
  decide

/-- Counterexample to C3: in variant 1's reconciliation the container is
compared although the policy does not require it — a `GATE_IN` request
with prefix `XYZ` (policy check not required) and differing container
values still produces a containerNumber mismatch. -/
theorem spec_c3_cex :
    requireContainer
      ⟨some "XYZ123", some "GATE_IN", some "V1", some "C1",
       none, none, none⟩ = false ∧
    computeMismatchesV1
      ⟨some "XYZ123", some "GATE_IN", some "V1", some "C1",
       none, none, none⟩
      ⟨some "XYZ123", some "C2", none, none, none, none, none, none⟩ =
      [⟨"containerNumber", some "C1", some "C2", none⟩] := by
  decide

/-- Claim C3 as amended: in variant 2 a containerNumber mismatch detail
is produced exactly when the policy requires the check and both sides are
present (truthy) and the values differ; in variant 1 it is produced
exactly when the submitted value is truthy and differs from the authority
value, regardless of policy and of authority-side presence. -/
theorem spec_c3_amended (client : Client) (soap2 : SoapDataV2)
    (soap1 : SoapDataV1) :
    ((∃ m ∈ computeMismatchesV2 client soap2,
        m.field = "containerNumber") ↔
      requireContainer client = true ∧
      truthy client.containerNumber = true ∧
      truthy soap2.containerNumber = true ∧
      client.containerNumber ≠ soap2.containerNumber) ∧
    ((∃ m ∈ computeMismatchesV1 client soap1,
        m.field = "containerNumber") ↔
      truthy client.containerNumber = true ∧
      client.containerNumber ≠ soap1.containerNumber) := by
  unfold computeMismatchesV2 computeMismatchesV1
  constructor
  · split_ifs with h1 h2 h3 h4 h5 <;> simp_all
  · split_ifs with h1 h2 h3 <;> simp_all <;> assumption

/-- Counterexample to C4: in variant 2's reconciliation the permit
numbers disagree yet the mismatch list is empty — no permitNumber detail
is ever produced there. -/
theorem spec_c4_cex :
    (⟨some "AAA111", some "GATE_IN", some "V1", none, none, none, none⟩ :
        Client).permitNumber ≠
      (⟨some "BBB222", none, some "V1", some "d"⟩ :
        SoapDataV2).permitNumber ∧
    computeMismatchesV2
      ⟨some "AAA111", some "GATE_IN", some "V1", none, none, none, none⟩
      ⟨some "BBB222", none, some "V1", some "d"⟩ = [] := by
  decide

/-- Claim C4 as amended: variant 1 always compares the permit numbers and
reports every disagreement as a permitNumber detail (and reports none when
they agree); variant 2's reconciliation performs no permit-number
comparison at all, so its mismatch list never holds a permitNumber
detail. -/
theorem spec_c4_amended (client : Client) (soap1 : SoapDataV1)
    (soap2 : SoapDataV2) :
    (client.permitNumber ≠ soap1.permitNumber →
      (⟨"permitNumber", client.permitNumber, soap1.permitNumber, none⟩ :
        MismatchDetail) ∈ computeMismatchesV1 client soap1) ∧
    (client.permitNumber = soap1.permitNumber →
      ∀ m ∈ computeMismatchesV1 client soap1, m.field ≠ "permitNumber") ∧
    (∀ m ∈ computeMismatchesV2 client soap2, m.field ≠ "permitNumber") := by
  unfold computeMismatchesV1 computeMismatchesV2
  refine ⟨?_, ?_, ?_⟩
  · intro hne
    split_ifs <;> simp_all
  · intro heq
    split_ifs <;> simp_all
  · split_ifs <;> simp_all

/-- Witness for C4's amended theorem: a concrete variant-1 disagreement
produces the permitNumber detail. -/
theorem spec_c4_witness :
    (⟨"permitNumber", some "A", some "B", none⟩ : MismatchDetail) ∈
      computeMismatchesV1
        ⟨some "A", none, none, none, none, none, none⟩
        ⟨some "B", none, none, none, none, none, none, none⟩ :=
  (spec_c4_amended
    ⟨some "A", none, none, none, none, none, none⟩
    ⟨some "B", none, none, none, none, none, none, none⟩
    ⟨none, none, none, none⟩).1 (by decide)

/-- Counterexample to C5: in variant 1's reconciliation a request with no
vehicle number at all produces an empty mismatch list — no vehicleNumber
absence detail exists, although the authority reports a vehicle. -/
theorem spec_c5_cex :
    (⟨some "P", none, none, none, none, none, none⟩ :
        Client).vehicleNumber = none ∧
    computeMismatchesV1
      ⟨some "P", none, none, none, none, none, none⟩
      ⟨some "P", none, none, none, none, some "V9", none, none⟩ = [] := by
  decide

/-- Claim C5 as amended: in variant 2 a falsy (absent or empty) submitted
vehicle number always yields the absence detail, and a value-mismatch
detail appears exactly when both sides are truthy and differ; variant 1's
reconciliation performs no vehicle check, so its list never holds a
vehicleNumber detail. -/
theorem spec_c5_amended (client : Client) (soap2 : SoapDataV2)
    (soap1 : SoapDataV1) :
    (truthy client.vehicleNumber = false →
      (⟨"vehicleNumber", none, none,
        some "Vehicle number missing from validate payload"⟩ :
        MismatchDetail) ∈ computeMismatchesV2 client soap2) ∧
    ((∃ m ∈ computeMismatchesV2 client soap2,
        m.field = "vehicleNumber" ∧ m.reason = none) ↔
      truthy client.vehicleNumber = true ∧
      truthy soap2.vehicleNumber = true ∧
      client.vehicleNumber ≠ soap2.vehicleNumber) ∧
    (∀ m ∈ computeMismatchesV1 client soap1,
      m.field ≠ "vehicleNumber") := by
  unfold computeMismatchesV2 computeMismatchesV1
  refine ⟨?_, ?_, ?_⟩
  · intro hf
    split_ifs <;> simp_all
  · split_ifs <;> simp_all
  · split_ifs <;> simp_all

/-- Witness for C5's amended theorem: a concrete request with no vehicle
number gets the absence detail in variant 2. -/
theorem spec_c5_witness :
    (⟨"vehicleNumber", none, none,
      some "Vehicle number missing from validate payload"⟩ :
      MismatchDetail) ∈
      computeMismatchesV2
        ⟨some "P", some "GATE_IN", none, none, none, none, none⟩
        ⟨some "P", none, some "V9", some "d"⟩ :=
  (spec_c5_amended
    ⟨some "P", some "GATE_IN", none, none, none, none, none⟩
    ⟨some "P", none, some "V9", some "d"⟩
    ⟨none, none, none, none, none, none, none, none⟩).1 (by decide)

/-- Claim C6: in variant 1 (the deployment with manual override), a
request with `confirmedByUser === true` produces exactly the incoming
log, the matched audit entry, the forward attempt and the matched event —
in that order — followed by the immediate success response; no SOAP call
ever appears, and the emitted payload carries source `manual` and a null
authority record. -/
theorem spec_c6 (dateVal : String → Option Int) (now : Int) (ts : String)
    (client : Client) (soapResult : Except String SoapDataV1)
    (delivery : Except String Unit)
    (h : client.confirmedByUser = some true) :
    validateV1 dateVal now ts client soapResult delivery =
      ([Effect.log "incoming.log.json" (LogPayload.incomingBody client),
        Effect.log "matched.log.json"
          (LogPayload.manualMatched client ts)] ++
        sendToTargetAPI (LogPayload.manualMatched client ts) delivery ++
        [Effect.emit "gate:matched" (LogPayload.manualMatched client ts)],
       ⟨200, .manualOk "Manually confirmed & sent"⟩) ∧
    (∀ pn, Effect.soapCall pn ∉
      (validateV1 dateVal now ts client soapResult delivery).1) ∧
    (LogPayload.manualMatched client ts :
      LogPayload SoapDataV1).sourceTag = some "manual" ∧
    (LogPayload.manualMatched client ts :
      LogPayload SoapDataV1).soapDataOf = none := by
  refine ⟨?_, ?_, rfl, rfl⟩
  · simp [validateV1, h]
  · intro pn
    cases delivery <;>
      simp [validateV1, h, sendToTargetAPI, LogPayload.manualMatched]

/-- Witness for C6 at a concrete confirmed request. -/
theorem spec_c6_witness :
    (validateV1 (fun _ => none) 0 "T"
        ⟨some "P", some "GATE_IN", some "V1", none, none, none, some true⟩
        (.ok ⟨some "P", none, none, none, none, some "V1", none, none⟩)
        (.ok ())).2 =
      ⟨200, .manualOk "Manually confirmed & sent"⟩ := by
  have h := spec_c6 (fun _ => none) 0 "T"
    ⟨some "P", some "GATE_IN", some "V1", none, none, none, some true⟩
    (.ok ⟨some "P", none, none, none, none, some "V1", none, none⟩)
    (.ok ()) rfl
  rw [h.1]

/-- Counterexample to C7: variant 1 answers an expired permit with status
422 but response `type` `INVALID_PERMIT`, not `PERMIT_EXPIRED`. -/
theorem spec_c7_cex :
    (validateV1 (fun _ => none) 0 "T"
        ⟨some "P", some "GATE_IN", some "V1", none, none, none, none⟩
        (.ok ⟨some "P", none, none, none, none, some "V1", none, none⟩)
        (.ok ())).2 =
      ⟨422, .expired "INVALID_PERMIT" "Permit is expired"
        ⟨some "P", none, none, none, none, some "V1", none, none⟩⟩ ∧
    "INVALID_PERMIT" ≠ "PERMIT_EXPIRED" := by
  exact ⟨rfl, by decide⟩

/-- Claim C7 as amended: every expired-permit outcome is a 422 whose body
carries the authority record, with `type` `PERMIT_EXPIRED` in variant 2
but `INVALID_PERMIT` in variant 1. -/
theorem spec_c7_amended
    (dateVal : String → Option Int) (now : Int) (ts : String)
    (client2 : Client) (soap2 : SoapDataV2) (delivery2 : Except String Unit)
    (client1 : Client) (soap1 : SoapDataV1) (delivery1 : Except String Unit)
    (h2 : isPermitExpired dateVal now soap2.isPermitValidTill = true)
    (h1 : client1.confirmedByUser ≠ some true) :
    (validateV2 dateVal now client2 (.ok soap2) delivery2).2 =
      ⟨422, .expired "PERMIT_EXPIRED" "Permit is expired" soap2⟩ ∧
    (validateV1 dateVal now ts client1 (.ok soap1) delivery1).2 =
      ⟨422, .expired "INVALID_PERMIT" "Permit is expired" soap1⟩ := by
  constructor
  · simp [validateV2, h2]
  · simp [validateV1, h1, expiredV1_always]

/-- Witness for C7's amended theorem at concrete expired inputs. -/
theorem spec_c7_witness :
    (validateV2 (fun _ => some 5) 10
        ⟨some "P", some "GATE_IN", some "V1", none, none, none, none⟩
        (.ok ⟨some "P", none, some "V1", some "old"⟩) (.ok ())).2 =
      ⟨422, .expired "PERMIT_EXPIRED" "Permit is expired"
        ⟨some "P", none, some "V1", some "old"⟩⟩ := by
  have h := spec_c7_amended (fun _ => some 5) 10 "T"
    ⟨some "P", some "GATE_IN", some "V1", none, none, none, none⟩
    ⟨some "P", none, some "V1", some "old"⟩ (.ok ())
    ⟨some "P", some "GATE_IN", some "V1", none, none, none, none⟩
    ⟨some "P", none, none, none, none, some "V1", none, none⟩ (.ok ())
    (by decide) (by decide)
  exact h.1

theorem reconcileV2_resp (client : Client) (soap : SoapDataV2)
    (delivery : Except String Unit) :
    (reconcileV2 client soap delivery).2 =
      if (computeMismatchesV2 client soap).length = 0 then
        ⟨200, .matchedOk soap⟩
      else ⟨409, .mismatch (computeMismatchesV2 client soap) soap⟩ := by
  unfold reconcileV2
  split_ifs with h <;> simp [h]

theorem reconcileV1_resp (ts : String) (client : Client)
    (soap : SoapDataV1) (delivery : Except String Unit) :
    (reconcileV1 ts client soap delivery).2 =
      if (computeMismatchesV1 client soap).length = 0 then
        ⟨200, .matchedOk soap⟩
      else ⟨409, .mismatch (computeMismatchesV1 client soap) soap⟩ := by
  unfold reconcileV1
  split_ifs with h <;> simp [h]

/-- Claim C8: `sendToTargetAPI` never propagates a failure — its embedding
is a total function whose error case appends the `{error, payload}` entry
under the forward-error category after the attempt; and the HTTP response
of a whole transaction is independent of the delivery outcome in both
variants, so a matched transaction still completes with its success
response when forwarding fails. -/
theorem spec_c8 {σ : Type} (p : LogPayload σ) (msg : String)
    (dateVal : String → Option Int) (now : Int) (ts : String)
    (client2 : Client) (soapResult2 : Except String SoapDataV2)
    (client1 : Client) (soapResult1 : Except String SoapDataV1)
    (d d' : Except String Unit) :
    sendToTargetAPI p (.error msg) =
      [Effect.log "sent-to-api.log.json" p,
       Effect.post DUMMY_TARGET_API p,
       Effect.log "sent-to-api-error.log.json"
         (LogPayload.forwardError msg p)] ∧
    sendToTargetAPI p (.ok ()) =
      [Effect.log "sent-to-api.log.json" p,
       Effect.post DUMMY_TARGET_API p] ∧
    (validateV2 dateVal now client2 soapResult2 d).2 =
      (validateV2 dateVal now client2 soapResult2 d').2 ∧
    (validateV1 dateVal now ts client1 soapResult1 d).2 =
      (validateV1 dateVal now ts client1 soapResult1 d').2 := by
  refine ⟨rfl, rfl, ?_, ?_⟩
  · cases soapResult2 with
    | error m => rfl
    | ok soap =>
      cases he : isPermitExpired dateVal now soap.isPermitValidTill <;>
        simp [validateV2, he, reconcileV2_resp]
  · by_cases hc : client1.confirmedByUser = some true
    · simp [validateV1, hc]
    · cases soapResult1 with
      | error m => simp [validateV1, hc]
      | ok soap =>
        cases he : isPermitExpired dateVal now soap.isPermitValidTill <;>
          simp [validateV1, hc, he, reconcileV1_resp]

theorem writeAll_readLog {α : Type} (file : String)
    (entries : List (String × α)) (fs : FileStore α) :
    readLog file (writeAll file entries fs) =
      readLog file fs ++ entries.map fun e => LogEntry.mk e.1 e.2 := by
  induction entries generalizing fs with
  | nil => simp [writeAll]
  | cons e rest ih =>
    have hstep : writeAll file (e :: rest) fs =
        writeAll file rest (writeLog file e.1 e.2 fs) := rfl
    rw [hstep, ih]
    have hread : readLog file (writeLog file e.1 e.2 fs) =
        readLog file fs ++ [LogEntry.mk e.1 e.2] := by
      simp [readLog, writeLog]
    rw [hread]
    simp

/-- Claim C9: appending a sequence of entries to one category of a fresh
log store and then querying that category returns exactly those entries,
in append order, each under the timestamp assigned at its append. -/
theorem spec_c9 {α : Type} (file : String)
    (entries : List (String × α)) :
    readLog file (writeAll file entries (emptyStore α)) =
      (entries.map fun e => LogEntry.mk e.1 e.2) ∧
    (readLog file (writeAll file entries (emptyStore α))).length =
      entries.length := by
  have h := writeAll_readLog file entries (emptyStore α)
  have hempty : readLog file (emptyStore α) = [] := rfl
  rw [hempty] at h
  simp at h
  exact ⟨h, by rw [h]; simp⟩

/-- Claim C10: variant 1's SOAP normalizer produces no validity field, the
expiry check therefore sees an absent indicator on every parsed record,
and every variant-1 transaction taking the SOAP flow (not manually
confirmed) is classified Expired with a 422, regardless of the authority's
actual field values. -/
theorem spec_c10 (d : PermitDTLS)
    (dateVal : String → Option Int) (now : Int) (ts : String)
    (client : Client) (soap : SoapDataV1) (delivery : Except String Unit)
    (h : client.confirmedByUser ≠ some true) :
    (parseSoapResponseV1 d).isPermitValidTill = none ∧
    isPermitExpired dateVal now
      (parseSoapResponseV1 d).isPermitValidTill = true ∧
    (validateV1 dateVal now ts client (.ok soap) delivery).2 =
      ⟨422, .expired "INVALID_PERMIT" "Permit is expired" soap⟩ := by
  refine ⟨rfl, rfl, ?_⟩
  simp [validateV1, h, expiredV1_always]

/-- Witness for C10: a concrete unconfirmed request against a fully
populated, notionally valid authority record is still answered 422. -/
theorem spec_c10_witness :
    (validateV1 (fun _ => some 99999) 0 "T"
        ⟨some "PMA1001", some "GATE_IN", some "MH12AB1234",
         none, none, none, none⟩
        (.ok (parseSoapResponseV1
          ⟨some "PMA1001", some "C1", some "20", some "GP", some "OK",
           some "MH12AB1234", some "SL", some "MT", some "2099-01-01"⟩))
        (.ok ())).2 =
      ⟨422, .expired "INVALID_PERMIT" "Permit is expired"
        (parseSoapResponseV1
          ⟨some "PMA1001", some "C1", some "20", some "GP", some "OK",
           some "MH12AB1234", some "SL", some "MT", some "2099-01-01"⟩)⟩ := by
  have h := spec_c10
    ⟨some "PMA1001", some "C1", some "20", some "GP", some "OK",
     some "MH12AB1234", some "SL", some "MT", some "2099-01-01"⟩
    (fun _ => some 99999) 0 "T"
    ⟨some "PMA1001", some "GATE_IN", some "MH12AB1234",
     none, none, none, none⟩
    (parseSoapResponseV1
      ⟨some "PMA1001", some "C1", some "20", some "GP", some "OK",
       some "MH12AB1234", some "SL", some "MT", some "2099-01-01"⟩)
    (.ok ()) (by decide)
  exact h.2.2
